import Mathlib

/-
Verification development for the gemini-srv session/continuation manager.

The Go source is shallowly embedded: Go strings are modelled as Lean
`String` (sequences of characters; all concrete inputs in this development
are ASCII, where Go's byte-based `len`/slicing coincides with character
counts), Go slices of `T` are `Option (List T)` where `none` is the nil
slice, the on-disk conversation directory is a finite association list
from session identifier to file content (`none` modelling an unparseable
file), wall-clock instants are `Nat`, and every I/O or network effect is
an explicit input: the remote agent's reply, the stream-open error, the
list of streamed events, and the success of a file write or removal are
parameters of the embedded operation.
-/

namespace GeminiSrv

/-- Session mirrors the Go struct `session.Session` (second, protocol-based
revision of `session/session.go`): identifier, display name, history lines,
last-access instant, working directory, and the continuation identifiers
`ContextID`/`TaskID`. -/
structure Session where
  id : String
  name : String
  history : List String
  lastAccess : Nat
  workingDirectory : String
  contextID : String
  taskID : String
deriving Repr, DecidableEq

/-- Stats mirrors `stats.Stats`: process-wide call counters. -/
structure Stats where
  totalCalls : Nat
  totalLatency : Nat
  totalCharsIn : Nat
  totalCharsOut : Nat
deriving Repr, DecidableEq

/-- Stats.recordCall mirrors `Stats.RecordCall`: increments the call count
and adds the latency and character counts to the accumulators. -/
def Stats.recordCall (st : Stats) (latency charsIn charsOut : Nat) : Stats :=
  { totalCalls := st.totalCalls + 1
    totalLatency := st.totalLatency + latency
    totalCharsIn := st.totalCharsIn + charsIn
    totalCharsOut := st.totalCharsOut + charsOut }

/-- FS models the durable conversation directory: an association list from
session identifier to file content, where the source stores the record for
identifier `id` in the file `id + ".json"` (the identifier-to-filename map
is injective, so entries are keyed by identifier) and `none` models a file
that `json.Decode` cannot parse. -/
structure FS where
  files : List (String × Option Session)
deriving Repr, DecidableEq

/-- fileLookup finds the content of the durable file for an identifier. -/
def fileLookup (fs : FS) (id : String) : Option (Option Session) :=
  (fs.files.find? (fun e => e.1 = id)).map (fun e => e.2)

/-- fsWrite is a whole-file replace of the durable file for `s.id`
(`os.Create` truncates an existing file; a fresh file is appended to the
directory). -/
def fsWrite (fs : FS) (s : Session) : FS :=
  if fs.files.any (fun e => e.1 = s.id) then
    ⟨fs.files.map (fun e => if e.1 = s.id then (s.id, some s) else e)⟩
  else
    ⟨fs.files ++ [(s.id, some s)]⟩

/-- fsRemove deletes the durable file for an identifier (`os.Remove`). -/
def fsRemove (fs : FS) (id : String) : FS :=
  ⟨fs.files.filter (fun e => e.1 ≠ id)⟩

/-- SaveResult carries the session as mutated by `Session.save` (the Go
method stamps `s.LastAccess = time.Now()` on the shared record before
writing), the resulting directory state, and the error, if any. -/
structure SaveResult where
  session : Session
  fs : FS
  err : Option String
deriving Repr, DecidableEq

/-- saveSession mirrors `Session.save`: stamps last-access to now, then
writes the whole file; `ok` is the outcome of the `os.Create`/encode I/O
(on failure the directory is unchanged and the error is returned). -/
def saveSession (fs : FS) (s : Session) (now : Nat) (ok : Bool) : SaveResult :=
  let s' : Session := { s with lastAccess := now }
  if ok then
    { session := s', fs := fsWrite fs s', err := none }
  else
    { session := s', fs := fs, err := some "could not create session file" }

/-- load mirrors `Manager.load`: an absent file fails like `os.Open`, an
unparseable file fails like `json.Decode`. -/
def load (fs : FS) (id : String) : Except String Session :=
  match fileLookup fs id with
  | none => .error "could not open session file"
  | some none => .error "could not decode session file"
  | some (some s) => .ok s

/-- Manager mirrors `session.Manager`: the in-memory cache of sessions
keyed by identifier (the data path, client and stats handles are threaded
as explicit arguments of each operation). -/
structure Manager where
  sessions : List (String × Session)
deriving Repr, DecidableEq

/-- cacheLookup reads the in-memory session cache. -/
def cacheLookup (m : Manager) (id : String) : Option Session :=
  (m.sessions.find? (fun e => e.1 = id)).map (fun e => e.2)

/-- cacheInsert models a Go map assignment `m.sessions[id] = s` (also used
for the pointer-mutation of an already-cached record). -/
def cacheInsert (m : Manager) (id : String) (s : Session) : Manager :=
  if m.sessions.any (fun e => e.1 = id) then
    ⟨m.sessions.map (fun e => if e.1 = id then (id, s) else e)⟩
  else
    ⟨m.sessions ++ [(id, s)]⟩

/-- AcquireResult carries the acquired session, the cache state after the
call, and the error, if any (Go returns `(*Session, error)` while mutating
the cache in place). -/
structure AcquireResult where
  session : Option Session
  manager : Manager
  err : Option String
deriving Repr, DecidableEq

/-- AcquireSession mirrors `Manager.AcquireSession`: a cached record is
returned with its last-access refreshed in memory only; otherwise the
record is loaded from the store and inserted into the cache, and a load
failure is returned with the cache untouched. -/
def AcquireSession (m : Manager) (fs : FS) (id : String) (now : Nat) : AcquireResult :=
  match cacheLookup m id with
  | some s =>
      let s' : Session := { s with lastAccess := now }
      { session := some s', manager := cacheInsert m id s', err := none }
  | none =>
      match load fs id with
      | .error e => { session := none, manager := m, err := some e }
      | .ok s => { session := some s, manager := cacheInsert m id s, err := none }

/-- CreateResult carries the created session, the cache and directory
states after the call, and the error, if any. -/
structure CreateResult where
  session : Option Session
  manager : Manager
  fs : FS
  err : Option String
deriving Repr, DecidableEq

/-- CreateSession mirrors `Manager.CreateSession`: builds a fresh record
named "New Conversation" with empty history, persists it immediately, and
only then inserts it into the cache; a save failure is returned with both
the cache and the directory untouched. -/
def CreateSession (m : Manager) (fs : FS) (id workingDir : String) (now : Nat)
    (saveOk : Bool) : CreateResult :=
  let session : Session :=
    { id := id, name := "New Conversation", history := [], lastAccess := now
      workingDirectory := workingDir, contextID := "", taskID := "" }
  let sv := saveSession fs session now saveOk
  match sv.err with
  | some e => { session := none, manager := m, fs := fs, err := some e }
  | none =>
      { session := some sv.session, manager := cacheInsert m id sv.session
        fs := sv.fs, err := none }

/-- fieldsGo scans characters, accumulating the current token reversed in
`acc` and emitting a token at each whitespace run or at the end. -/
def fieldsGo : List Char → List Char → List String
  | acc, [] => if acc.isEmpty then [] else [⟨acc.reverse⟩]
  | acc, c :: cs =>
      if c.isWhitespace then
        if acc.isEmpty then fieldsGo [] cs
        else ⟨acc.reverse⟩ :: fieldsGo [] cs
      else fieldsGo (c :: acc) cs

/-- fields mirrors Go `strings.Fields`: split around runs of whitespace,
dropping empty tokens (whitespace is modelled by `Char.isWhitespace`;
identical to Go on ASCII input). -/
def fields (s : String) : List String :=
  fieldsGo [] s.data

/-- strJoin mirrors Go `strings.Join`: concatenate with a separator
between consecutive elements. -/
def strJoin (sep : String) : List String → String
  | [] => ""
  | [w] => w
  | w :: ws => w ++ sep ++ strJoin sep ws

/-- strTruncate models Go string slicing `s[:n]` (byte-based in Go,
character-based here; identical on ASCII input). -/
def strTruncate (s : String) (n : Nat) : String :=
  ⟨s.data.take n⟩

/-- generateNameFromPrompt mirrors `generateNameFromPrompt`: keep at most
the first five whitespace-delimited tokens, rejoin with single spaces,
truncate to 50 characters. -/
def generateNameFromPrompt (prompt : String) : String :=
  let words := fields prompt
  let words := if words.length > 5 then words.take 5 else words
  let name := strJoin " " words
  if name.length > 50 then strTruncate name 50 else name

/-- Part models `protocol.Part`: a text part carrying a string, or any
non-text part (file, data). The source matches text parts both as values
and behind pointers; the model does not distinguish the two. -/
inductive Part
  | text (t : String)
  | nonText
deriving Repr, DecidableEq

/-- ProtoMessage models `protocol.Message` as used by the manager: kind
discriminant, optional continuation identifiers (pointers in Go), and the
parts list. -/
structure ProtoMessage where
  kind : String
  contextID : Option String
  taskID : Option String
  parts : List Part
deriving Repr, DecidableEq

/-- ProtoTask models `protocol.Task` as used by the manager: task
identifier and context identifier. -/
structure ProtoTask where
  id : String
  contextID : String
deriving Repr, DecidableEq

/-- SendResult models the dynamically-typed `response.Result` of a
non-streaming `SendMessage` reply: a message, a task, or anything else. -/
inductive SendResult
  | message (m : ProtoMessage)
  | task (t : ProtoTask)
  | other
deriving Repr, DecidableEq

/-- extractTextFromMessage mirrors `extractTextFromMessage` (and the
identical inline loop in `RunPrompt`): concatenate the text of every
text-typed part, in order. -/
def extractTextFromMessage (parts : List Part) : String :=
  parts.foldl (fun acc p => match p with | .text t => acc ++ t | .nonText => acc) ""

/-- TurnResult carries everything a completed `RunPrompt`/`RunPromptAsTask`
turn produces: the returned text (response text or task identifier), the
returned error, and the session, stats and directory states after the
turn. -/
structure TurnResult where
  text : String
  err : Option String
  session : Session
  stats : Stats
  fs : FS
deriving Repr, DecidableEq

/-- fmtErr models `fmt` rendering of a possibly-nil Go error with `%v`. -/
def fmtErr : Option String → String
  | none => "<nil>"
  | some e => e

/-- RunPrompt mirrors `Manager.RunPrompt`: the remote call's reply and
error arrive as inputs (`reply`, `callErr`), the response text is the
concatenated text parts when the reply's result is a message (empty
otherwise), statistics are recorded unconditionally, the display name is
derived only on empty history, the two history lines are appended, and the
record is saved; a save failure wraps both the original call error and the
save error in the returned error. -/
def RunPrompt (s : Session) (st : Stats) (fs : FS) (prompt : String)
    (reply : Option SendResult) (callErr : Option String)
    (latency now : Nat) (saveOk : Bool) : TurnResult :=
  let responseText :=
    match reply with
    | some (.message msg) => extractTextFromMessage msg.parts
    | _ => ""
  let st := st.recordCall latency prompt.length responseText.length
  let s := if s.history.length = 0 then { s with name := generateNameFromPrompt prompt } else s
  let s := { s with history := s.history ++ ["User: " ++ prompt, "Gemini: " ++ responseText] }
  let sv := saveSession fs s now saveOk
  match sv.err with
  | some saveErr =>
      { text := responseText
        err := some ("original error: " ++ fmtErr callErr ++ ", failed to save session: " ++ saveErr)
        session := sv.session, stats := st, fs := sv.fs }
  | none =>
      { text := responseText, err := callErr, session := sv.session, stats := st, fs := sv.fs }

/-- RunPromptAsTask mirrors `Manager.RunPromptAsTask`: the task identifier
is extracted when the reply's result is a task (empty otherwise), zero
output characters are recorded, and the placeholder history line
`"Gemini: (task <id>)"` is appended. -/
def RunPromptAsTask (s : Session) (st : Stats) (fs : FS) (prompt : String)
    (reply : Option SendResult) (callErr : Option String)
    (latency now : Nat) (saveOk : Bool) : TurnResult :=
  let taskID :=
    match reply with
    | some (.task t) => t.id
    | _ => ""
  let st := st.recordCall latency prompt.length 0
  let s := if s.history.length = 0 then { s with name := generateNameFromPrompt prompt } else s
  let s := { s with history := s.history ++ ["User: " ++ prompt, "Gemini: (task " ++ taskID ++ ")"] }
  let sv := saveSession fs s now saveOk
  match sv.err with
  | some saveErr =>
      { text := taskID
        err := some ("original error: " ++ fmtErr callErr ++ ", failed to save session: " ++ saveErr)
        session := sv.session, stats := st, fs := sv.fs }
  | none =>
      { text := taskID, err := callErr, session := sv.session, stats := st, fs := sv.fs }

/-- TaskStatus models `protocol.TaskStatus`: state plus an optional
embedded message (a nil-able pointer in Go). -/
structure TaskStatus where
  state : String
  message : Option ProtoMessage
deriving Repr, DecidableEq

/-- TaskObj models `protocol.Task` as delivered on a stream: identifier,
context identifier and status. -/
structure TaskObj where
  id : String
  contextID : String
  status : TaskStatus
deriving Repr, DecidableEq

/-- ArtifactEvent models `protocol.TaskArtifactUpdateEvent`: continuation
identifiers, the artifact's parts and the last-chunk hint. -/
structure ArtifactEvent where
  contextID : String
  taskID : String
  parts : List Part
  lastChunk : Option Bool
deriving Repr, DecidableEq

/-- StatusEvent models `protocol.TaskStatusUpdateEvent`: continuation
identifiers plus the status carrying an optional embedded message. -/
structure StatusEvent where
  contextID : String
  taskID : String
  status : TaskStatus
deriving Repr, DecidableEq

/-- StreamResult models the dynamically-typed result of one streaming
event, discriminated in the source by `event.Result.GetKind()`. -/
inductive StreamResult
  | message (m : ProtoMessage)
  | artifactUpdate (a : ArtifactEvent)
  | task (t : TaskObj)
  | statusUpdate (u : StatusEvent)
  | unknown
deriving Repr, DecidableEq

/-- relayStep is one iteration of the relay goroutine's event switch in
`Manager.RunPromptStream`: classify the event, update the record's
continuation identifiers and the accumulated text. The message case
dereferences the event's context/task pointers; `none` models the Go
nil-pointer panic that would kill the goroutine. -/
def relayStep (s : Session) (acc : String) : StreamResult → Option (Session × String)
  | .message msg =>
      match msg.contextID, msg.taskID with
      | some c, some t =>
          some ({ s with contextID := c, taskID := t }, acc ++ extractTextFromMessage msg.parts)
      | _, _ => none
  | .artifactUpdate a =>
      some ({ s with contextID := a.contextID, taskID := a.taskID }, acc)
  | .task t =>
      some ({ s with contextID := t.contextID, taskID := t.id }, acc)
  | .statusUpdate u =>
      let acc :=
        match u.status.message with
        | some m => if m.kind = "message" then acc ++ extractTextFromMessage m.parts else acc
        | none => acc
      some ({ s with contextID := u.contextID, taskID := u.taskID }, acc)
  | .unknown => some (s, acc)

/-- relayEvents runs the relay goroutine's loop over the internal channel:
each event is classified (`relayStep`) and then forwarded unmodified to the
external sink (`eventChan <- event`); `fwd` accumulates the events the sink
has received so far, in order. -/
def relayEvents (s : Session) (acc : String) (fwd : List StreamResult) :
    List StreamResult → Option (Session × String × List StreamResult)
  | [] => some (s, acc, fwd)
  | e :: rest =>
      match relayStep s acc e with
      | none => none
      | some (s', acc') => relayEvents s' acc' (fwd ++ [e]) rest

/-- StreamTurnResult carries everything a `RunPromptStream` turn produces:
the returned error, the session, stats and directory states after the
turn, and the sequence of events forwarded to the external sink. -/
structure StreamTurnResult where
  err : Option String
  session : Session
  stats : Stats
  fs : FS
  forwarded : List StreamResult
deriving Repr, DecidableEq

/-- RunPromptStream mirrors `Manager.RunPromptStream`: a stream-open error
(`openErr`) returns immediately, before statistics, history or
persistence; otherwise the relay consumes `events`, statistics are
recorded with the accumulated text's length, the name/history/persistence
contract of `RunPrompt` runs, and a save failure is wrapped (the stream
error at that point is necessarily nil, the open error having returned
early). The outer `none` models the relay goroutine's nil-pointer panic. -/
def RunPromptStream (s : Session) (st : Stats) (fs : FS) (prompt : String)
    (openErr : Option String) (events : List StreamResult)
    (latency now : Nat) (saveOk : Bool) : Option StreamTurnResult :=
  match openErr with
  | some e =>
      some { err := some e, session := s, stats := st, fs := fs, forwarded := [] }
  | none =>
      match relayEvents s "" [] events with
      | none => none
      | some (s1, responseText, fwd) =>
          let err : Option String := none
          let st := st.recordCall latency prompt.length responseText.length
          let s1 :=
            if s1.history.length = 0 then { s1 with name := generateNameFromPrompt prompt } else s1
          let s1 := { s1 with history := s1.history ++ ["User: " ++ prompt, "Gemini: " ++ responseText] }
          let sv := saveSession fs s1 now saveOk
          match sv.err with
          | some saveErr =>
              some { err := some (match err with
                      | some e => "stream error: " ++ e ++ ", failed to save session: " ++ saveErr
                      | none => "failed to save session: " ++ saveErr)
                     session := sv.session, stats := st, fs := sv.fs, forwarded := fwd }
          | none =>
              some { err := err, session := sv.session, stats := st, fs := sv.fs, forwarded := fwd }

/-- DeleteResult carries the cache and directory states after a delete and
the error, if any. -/
structure DeleteResult where
  manager : Manager
  fs : FS
  err : Option String
deriving Repr, DecidableEq

/-- DeleteSession mirrors `Manager.DeleteSession`: the cache entry is
removed first; `os.Remove` of an absent file (`os.IsNotExist`) is treated
as success, any other removal failure (`removeOk = false` with the file
present) is an error. -/
def DeleteSession (m : Manager) (fs : FS) (id : String) (removeOk : Bool) : DeleteResult :=
  let m' : Manager := ⟨m.sessions.filter (fun e => e.1 ≠ id)⟩
  match fileLookup fs id with
  | none => { manager := m', fs := fs, err := none }
  | some _ =>
      if removeOk then
        { manager := m', fs := fsRemove fs id, err := none }
      else
        { manager := m', fs := fs, err := some "could not delete session file" }

/-- ConversationInfo mirrors `session.ConversationInfo`. -/
structure ConversationInfo where
  id : String
  name : String
deriving Repr, DecidableEq

/-- GoSlice models a Go slice: `none` is the nil slice, `some xs` a
non-nil slice with elements `xs`. -/
def GoSlice (α : Type) : Type := Option (List α)

instance (α : Type) [DecidableEq α] : DecidableEq (GoSlice α) :=
  fun a b => inferInstanceAs (Decidable (@Eq (Option (List α)) a b))

/-- goAppend models Go `append`: appending to a nil slice yields a
non-nil slice. -/
def goAppend {α : Type} (xs : GoSlice α) (x : α) : GoSlice α :=
  some (xs.getD [] ++ [x])

/-- listConvLoop is the directory-scan loop of `Manager.ListConversations`:
for each durable file, acquire the session (cache first, then disk) and
append its identifier and name; entries whose acquisition fails are logged
and skipped. -/
def listConvLoop (fs : FS) (now : Nat) :
    List (String × Option Session) → GoSlice ConversationInfo → Manager →
    GoSlice ConversationInfo × Manager
  | [], convs, m => (convs, m)
  | (sessionID, _) :: rest, convs, m =>
      let r := AcquireSession m fs sessionID now
      match r.session, r.err with
      | some sess, none =>
          listConvLoop fs now rest (goAppend convs ⟨sess.id, sess.name⟩) r.manager
      | _, _ => listConvLoop fs now rest convs m

/-- ListResult carries the returned collection (a Go slice, possibly nil),
the cache state after the scan, and the error, if any. -/
structure ListResult where
  conversations : GoSlice ConversationInfo
  manager : Manager
  err : Option String

/-- ListConversations mirrors `Manager.ListConversations`: a directory
read failure (`dirOk = false`) is an error; otherwise the scan starts from
the nil slice `var conversations []ConversationInfo` and appends one entry
per loadable durable file. -/
def ListConversations (m : Manager) (fs : FS) (now : Nat) (dirOk : Bool) : ListResult :=
  if dirOk then
    let r := listConvLoop fs now fs.files none m
    { conversations := r.1, manager := r.2, err := none }
  else
    { conversations := none, manager := m, err := some "could not read sessions directory" }

/-- HandlerResp models the HTTP response of `listConversationsHandler`:
either a JSON-encoded (non-nil) list or an internal-server-error. -/
inductive HandlerResp
  | ok (convs : List ConversationInfo)
  | internalError (msg : String)
deriving Repr, DecidableEq

/-- listConversationsHandler mirrors the HTTP handler in `main.go`: a
manager failure becomes a 500; a nil collection is replaced by an empty
one before JSON encoding, so the serialized body is never `null`. -/
def listConversationsHandler (m : Manager) (fs : FS) (now : Nat) (dirOk : Bool) : HandlerResp :=
  let r := ListConversations m fs now dirOk
  match r.err with
  | some _ => .internalError "Failed to list conversations"
  | none => .ok (r.conversations.getD [])

/-- JPart mirrors the anonymous decoded part struct of
`a2aclient.Client.SendPrompt`: kind discriminant and text. -/
structure JPart where
  kind : String
  text : String
deriving Repr, DecidableEq

/-- JMessage mirrors the anonymous decoded message struct of
`a2aclient.Client.SendPrompt`: role and parts. -/
structure JMessage where
  role : String
  parts : List JPart
deriving Repr, DecidableEq

/-- JResult mirrors the decoded `result` object of
`a2aclient.Client.SendPrompt`: kind discriminant, the task-kind message
history, and the message-kind single message (zero-valued when absent). -/
structure JResult where
  kind : String
  history : List JMessage
  message : JMessage
deriving Repr, DecidableEq

/-- jconcatParts is the inner loop of both branches of
`a2aclient.Client.SendPrompt`: concatenate the text of parts whose kind is
"text" and whose text is non-empty. -/
def jconcatParts (ps : List JPart) : String :=
  ps.foldl (fun acc p => if p.kind = "text" ∧ p.text ≠ "" then acc ++ p.text else acc) ""

/-- sendPromptParse mirrors the response interpretation of
`a2aclient.Client.SendPrompt` after JSON decoding: a task-kind result
concatenates the text parts of every agent-authored message of the task's
history, in order, and returns successfully even when that text is empty;
a message-kind result authored by the agent concatenates its text parts;
everything else fails with the "no response text" error. -/
def sendPromptParse (r : JResult) : Except String String :=
  if r.kind = "task" then
    .ok (r.history.foldl
      (fun acc msg => if msg.role = "agent" then acc ++ jconcatParts msg.parts else acc) "")
  else if r.kind = "message" ∧ r.message.role = "agent" then
    .ok (jconcatParts r.message.parts)
  else
    .error "no response text found in a2a-server response"

/-- sampleSession is a freshly created record as `CreateSession` builds it,
used as the concrete session of the testable-property scenarios. -/
def sampleSession : Session :=
  { id := "s1", name := "New Conversation", history := [], lastAccess := 0
    workingDirectory := "", contextID := "", taskID := "" }

/-- mockReply is a message-kind reply carrying the single text part
"mock response", as the test suite's stub agent returns. -/
def mockReply : Option SendResult :=
  some (.message { kind := "message", contextID := some "c", taskID := some "t", parts := [.text "mock response"] })

/-- mockMessageEvent is a streamed message event carrying the text
"mock response" and continuation identifiers "c1"/"t1". -/
def mockMessageEvent : StreamResult :=
  .message { kind := "message", contextID := some "c1", taskID := some "t1", parts := [.text "mock response"] }

/-- mockStatusEvent is a streamed status-update event whose embedded
message has no text parts, with continuation identifiers "c2"/"t2". -/
def mockStatusEvent : StreamResult :=
  .statusUpdate { contextID := "c2", taskID := "t2", status := { state := "working", message := some { kind := "message", contextID := none, taskID := none, parts := [.nonText] } } }

/-- concatAll is plain concatenation of a list of strings, in order. -/
def concatAll : List String → String
  | [] => ""
  | a :: l => a ++ concatAll l

/-- claimPartsText follows the specification's words: the concatenation,
in order, of the text-typed parts of a message. Compared below with the
source's guarded fold `jconcatParts`. -/
def claimPartsText (ps : List JPart) : String :=
  concatAll ((ps.filter (fun p => p.kind = "text")).map (fun p => p.text))

/-- claimTaskText follows the specification's words: the concatenation, in
history order, of the text-typed parts of the agent-authored messages of a
task's message history. -/
def claimTaskText (hist : List JMessage) : String :=
  concatAll ((hist.filter (fun msg => msg.role = "agent")).map (fun msg => claimPartsText msg.parts))

/-- entryWF says a durable file's parsed content, when parseable, records
the identifier the file is named after (`save` always writes the record of
identifier `id` to `id + ".json"`). -/
def entryWF (e : String × Option Session) : Bool :=
  match e.2 with
  | some s => s.id == e.1
  | none => true

/-- fsWF says every durable file in the store is consistent in the sense
of `entryWF`. -/
def fsWF (fs : FS) : Prop := ∀ e ∈ fs.files, entryWF e = true

/-- cacheWF says every cached session is stored under its own identifier. -/
def cacheWF (m : Manager) : Prop := ∀ e ∈ m.sessions, e.2.id = e.1

/-- streamTurnOutcome is the tail of `RunPromptStream` after a completed
relay: the statistics/naming/history/persistence steps applied to the
relay's final session `s1`, accumulated text `txt` and forwarded events
`fwd` (proof-side restatement used to reason about the stream turn). -/
def streamTurnOutcome (st : Stats) (fs : FS) (prompt : String)
    (s1 : Session) (txt : String) (fwd : List StreamResult)
    (latency now : Nat) (saveOk : Bool) : StreamTurnResult :=
  let st := st.recordCall latency prompt.length txt.length
  let s2 := if s1.history.length = 0 then { s1 with name := generateNameFromPrompt prompt } else s1
  let s3 := { s2 with history := s2.history ++ ["User: " ++ prompt, "Gemini: " ++ txt] }
  let sv := saveSession fs s3 now saveOk
  match sv.err with
  | some saveErr =>
      { err := some ("failed to save session: " ++ saveErr)
        session := sv.session, stats := st, fs := sv.fs, forwarded := fwd }
  | none =>
      { err := none, session := sv.session, stats := st, fs := sv.fs, forwarded := fwd }

theorem claimPartsText_cons (p : JPart) (ps : List JPart) :
    claimPartsText (p :: ps) =
      if p.kind = "text" then p.text ++ claimPartsText ps else claimPartsText ps := by
  by_cases hk : p.kind = "text" <;> simp [claimPartsText, List.filter_cons, hk, concatAll]

theorem jconcat_go (ps : List JPart) :
    ∀ acc, ps.foldl (fun acc p => if p.kind = "text" ∧ p.text ≠ "" then acc ++ p.text else acc) acc
      = acc ++ claimPartsText ps := by
  induction ps with
  | nil => intro acc; simp [claimPartsText, concatAll, String.append_empty]
  | cons p ps ih =>
      intro acc
      rw [List.foldl_cons, claimPartsText_cons]
      by_cases hk : p.kind = "text"
      · by_cases ht : p.text = ""
        · have hcond : ¬(p.kind = "text" ∧ p.text ≠ "") := by simp [ht]
          rw [if_neg hcond, if_pos hk, ih, ht, String.empty_append]
        · have hcond : p.kind = "text" ∧ p.text ≠ "" := ⟨hk, ht⟩
          rw [if_pos hcond, if_pos hk, ih, String.append_assoc]
      · have hcond : ¬(p.kind = "text" ∧ p.text ≠ "") := by simp [hk]
        rw [if_neg hcond, if_neg hk, ih]

theorem jconcatParts_eq_claim (ps : List JPart) : jconcatParts ps = claimPartsText ps := by
  rw [jconcatParts, jconcat_go, String.empty_append]

theorem taskFold_go (hist : List JMessage) :
    ∀ acc, hist.foldl (fun acc msg => if msg.role = "agent" then acc ++ jconcatParts msg.parts else acc) acc
      = acc ++ claimTaskText hist := by
  induction hist with
  | nil => intro acc; simp [claimTaskText, concatAll, String.append_empty]
  | cons msg hist ih =>
      intro acc
      by_cases hr : msg.role = "agent"
      · simp only [List.foldl_cons, if_pos hr]
        rw [ih, String.append_assoc]
        simp [claimTaskText, List.filter_cons, hr, concatAll, jconcatParts_eq_claim]
      · simp only [List.foldl_cons, if_neg hr]
        rw [ih]
        simp [claimTaskText, List.filter_cons, hr]

theorem relayStep_preserves (s : Session) (acc : String) (e : StreamResult)
    (s' : Session) (acc' : String) (h : relayStep s acc e = some (s', acc')) :
    s'.history = s.history ∧ s'.name = s.name ∧ s'.id = s.id := by
  cases e with
  | message msg =>
      cases hc : msg.contextID with
      | none => simp [relayStep, hc] at h
      | some c =>
          cases ht : msg.taskID with
          | none => simp [relayStep, hc, ht] at h
          | some t =>
              simp only [relayStep, hc, ht] at h
              obtain ⟨h1, h2⟩ := Prod.mk.injEq .. ▸ Option.some.inj h
              subst h1; exact ⟨rfl, rfl, rfl⟩
  | artifactUpdate a =>
      simp only [relayStep] at h
      obtain ⟨h1, h2⟩ := Prod.mk.injEq .. ▸ Option.some.inj h
      subst h1; exact ⟨rfl, rfl, rfl⟩
  | task t =>
      simp only [relayStep] at h
      obtain ⟨h1, h2⟩ := Prod.mk.injEq .. ▸ Option.some.inj h
      subst h1; exact ⟨rfl, rfl, rfl⟩
  | statusUpdate u =>
      simp only [relayStep] at h
      obtain ⟨h1, h2⟩ := Prod.mk.injEq .. ▸ Option.some.inj h
      subst h1; exact ⟨rfl, rfl, rfl⟩
  | unknown =>
      simp only [relayStep] at h
      obtain ⟨h1, h2⟩ := Prod.mk.injEq .. ▸ Option.some.inj h
      subst h1; exact ⟨rfl, rfl, rfl⟩

theorem relayEvents_preserves (events : List StreamResult) :
    ∀ (s : Session) (acc : String) (fwd : List StreamResult) out,
      relayEvents s acc fwd events = some out →
      out.1.history = s.history ∧ out.1.name = s.name ∧ out.1.id = s.id := by
  induction events with
  | nil =>
      intro s acc fwd out h
      simp only [relayEvents, Option.some.injEq] at h
      subst h; exact ⟨rfl, rfl, rfl⟩
  | cons e rest ih =>
      intro s acc fwd out h
      simp only [relayEvents] at h
      cases hstep : relayStep s acc e with
      | none => rw [hstep] at h; exact absurd h (by simp)
      | some p =>
          rw [hstep] at h
          obtain ⟨ph, pn, pi⟩ := relayStep_preserves s acc e p.1 p.2 (by rw [hstep])
          obtain ⟨o1, o2, o3⟩ := ih p.1 p.2 (fwd ++ [e]) out h
          exact ⟨o1.trans ph, o2.trans pn, o3.trans pi⟩

theorem relayEvents_fwd (events : List StreamResult) :
    ∀ (s : Session) (acc : String) (fwd : List StreamResult) out,
      relayEvents s acc fwd events = some out → out.2.2 = fwd ++ events := by
  induction events with
  | nil =>
      intro s acc fwd out h
      simp only [relayEvents, Option.some.injEq] at h
      subst h; simp
  | cons e rest ih =>
      intro s acc fwd out h
      simp only [relayEvents] at h
      cases hstep : relayStep s acc e with
      | none => rw [hstep] at h; exact absurd h (by simp)
      | some p =>
          rw [hstep] at h
          have := ih p.1 p.2 (fwd ++ [e]) out h
          simpa using this

theorem load_id (fs : FS) (id : String) (s : Session) (hf : fsWF fs)
    (h : load fs id = .ok s) : s.id = id := by
  unfold load fileLookup at h
  cases hfind : fs.files.find? (fun e => e.1 = id) with
  | none => rw [hfind] at h; simp at h
  | some e =>
      rw [hfind] at h
      simp only [Option.map_some'] at h
      have hmem := List.mem_of_find?_eq_some hfind
      have hkey : e.1 = id := by simpa using List.find?_some hfind
      have hwf := hf e hmem
      cases hc : e.2 with
      | none => rw [hc] at h; simp at h
      | some s0 =>
          rw [hc] at h
          simp only [Except.ok.injEq] at h
          subst h
          unfold entryWF at hwf
          rw [hc] at hwf
          simpa [hkey] using hwf

theorem cacheLookup_id (m : Manager) (id : String) (s : Session) (hc : cacheWF m)
    (h : cacheLookup m id = some s) : s.id = id := by
  unfold cacheLookup at h
  cases hfind : m.sessions.find? (fun e => e.1 = id) with
  | none => rw [hfind] at h; simp at h
  | some e =>
      rw [hfind] at h
      simp only [Option.map_some', Option.some.injEq] at h
      have hmem := List.mem_of_find?_eq_some hfind
      have hkey : e.1 = id := by simpa using List.find?_some hfind
      subst h
      rw [hc e hmem, hkey]

theorem cacheInsert_WF (m : Manager) (id : String) (s : Session) (hc : cacheWF m)
    (hid : s.id = id) : cacheWF (cacheInsert m id s) := by
  unfold cacheInsert
  by_cases hany : m.sessions.any (fun e => e.1 = id)
  · simp only [hany, if_true]
    intro e he
    obtain ⟨a, ha, hfa⟩ := List.mem_map.mp he
    by_cases hk : a.1 = id
    · simp only [hk, if_true] at hfa; subst hfa; exact hid
    · simp only [hk, if_false] at hfa; subst hfa; exact hc a ha
  · simp only [hany, if_false]
    intro e he
    rcases List.mem_append.mp he with h1 | h2
    · exact hc e h1
    · simp only [List.mem_singleton] at h2; subst h2; exact hid

theorem AcquireSession_id (m : Manager) (fs : FS) (sid : String) (now : Nat)
    (hc : cacheWF m) (hf : fsWF fs) :
    ∀ sess, (AcquireSession m fs sid now).session = some sess → sess.id = sid := by
  intro sess h
  unfold AcquireSession at h
  cases hcl : cacheLookup m sid with
  | some s =>
      rw [hcl] at h
      simp only [Option.some.injEq] at h
      subst h
      exact cacheLookup_id m sid s hc hcl
  | none =>
      rw [hcl] at h
      cases hld : load fs sid with
      | error e => rw [hld] at h; simp at h
      | ok s =>
          rw [hld] at h
          simp only [Option.some.injEq] at h
          subst h
          exact load_id fs sid s hf hld

theorem AcquireSession_cacheWF (m : Manager) (fs : FS) (sid : String) (now : Nat)
    (hc : cacheWF m) (hf : fsWF fs) : cacheWF (AcquireSession m fs sid now).manager := by
  unfold AcquireSession
  cases hcl : cacheLookup m sid with
  | some s =>
      exact cacheInsert_WF m sid _ hc (cacheLookup_id m sid s hc hcl)
  | none =>
      cases hld : load fs sid with
      | error e => exact hc
      | ok s => exact cacheInsert_WF m sid s hc (load_id fs sid s hf hld)

theorem load_fails_of_corrupt (fs : FS) (hfs : ∀ e ∈ fs.files, e.2 = none) (sid : String) :
    ∃ msg, load fs sid = .error msg := by
  unfold load fileLookup
  cases hfind : fs.files.find? (fun e => e.1 = sid) with
  | none => exact ⟨_, rfl⟩
  | some e =>
      have hmem := List.mem_of_find?_eq_some hfind
      have hcontent := hfs e hmem
      simp only [Option.map_some', hcontent]
      exact ⟨_, rfl⟩

theorem listConvLoop_allSkip (fs : FS) (now : Nat) (hfs : ∀ e ∈ fs.files, e.2 = none) :
    ∀ (files : List (String × Option Session)) (convs : GoSlice ConversationInfo),
      listConvLoop fs now files convs ⟨[]⟩ = (convs, (⟨[]⟩ : Manager)) := by
  intro files
  induction files with
  | nil => intro convs; rfl
  | cons f rest ih =>
      intro convs
      obtain ⟨sid, c⟩ := f
      obtain ⟨msg, hmsg⟩ := load_fails_of_corrupt fs hfs sid
      have hacq : AcquireSession ⟨[]⟩ fs sid now =
          { session := none, manager := ⟨[]⟩, err := some msg } := by
        unfold AcquireSession
        have hcl : cacheLookup ⟨[]⟩ sid = none := rfl
        rw [hcl, hmsg]
      simp only [listConvLoop, hacq]
      exact ih convs

theorem find?_key_filter {α : Type} (l : List (String × α)) (id : String) :
    (l.filter (fun e => e.1 ≠ id)).find? (fun e => e.1 = id) = none := by
  apply List.find?_eq_none.mpr
  intro a ha
  have h2 := (List.mem_filter.mp ha).2
  simp only [ne_eq, decide_not, Bool.not_eq_true', decide_eq_false_iff_not] at h2
  simpa using h2

theorem fsWF_filter (fs : FS) (p : String × Option Session → Bool) (hf : fsWF fs) :
    fsWF ⟨fs.files.filter p⟩ := by
  intro e he
  exact hf e (List.mem_of_mem_filter he)

theorem cacheWF_filter (m : Manager) (p : String × Session → Bool) (hc : cacheWF m) :
    cacheWF ⟨m.sessions.filter p⟩ := by
  intro e he
  exact hc e (List.mem_of_mem_filter he)

theorem keys_of_absent (fs : FS) (id : String) (h : fileLookup fs id = none) :
    ∀ e ∈ fs.files, e.1 ≠ id := by
  intro e he
  unfold fileLookup at h
  cases hfind : fs.files.find? (fun e => e.1 = id) with
  | some x => rw [hfind] at h; simp at h
  | none =>
      have := List.find?_eq_none.mp hfind e he
      simpa using this

theorem listConvLoop_excludes (fs : FS) (now : Nat) (id : String) (hf : fsWF fs) :
    ∀ (files : List (String × Option Session)) (m : Manager) (convs : GoSlice ConversationInfo),
      cacheWF m → (∀ e ∈ files, e.1 ≠ id) →
      (∀ info ∈ convs.getD [], info.id ≠ id) →
      ∀ info ∈ (listConvLoop fs now files convs m).1.getD [], info.id ≠ id := by
  intro files
  induction files with
  | nil => intro m convs hc hkeys hconvs info hinfo; exact hconvs info hinfo
  | cons f rest ih =>
      intro m convs hc hkeys hconvs
      obtain ⟨sid, c⟩ := f
      have hsid : sid ≠ id := hkeys (sid, c) (List.mem_cons_self ..)
      have hkeys' : ∀ e ∈ rest, e.1 ≠ id := fun e he => hkeys e (List.mem_cons_of_mem _ he)
      rcases hr : AcquireSession m fs sid now with ⟨rs, rm, re⟩
      have hwf' : cacheWF rm := by
        have := AcquireSession_cacheWF m fs sid now hc hf
        rw [hr] at this
        exact this
      cases rs with
      | none =>
          cases re with
          | none =>
              simp only [listConvLoop, hr]
              exact ih m convs hc hkeys' hconvs
          | some e =>
              simp only [listConvLoop, hr]
              exact ih m convs hc hkeys' hconvs
      | some sess =>
          have hid : sess.id = sid := by
            apply AcquireSession_id m fs sid now hc hf
            rw [hr]
          cases re with
          | some e =>
              simp only [listConvLoop, hr]
              exact ih m convs hc hkeys' hconvs
          | none =>
              simp only [listConvLoop, hr]
              apply ih rm _ hwf' hkeys'
              intro info hinfo
              simp only [goAppend, Option.getD_some] at hinfo
              rcases List.mem_append.mp hinfo with hone | htwo
              · exact hconvs info hone
              · simp only [List.mem_singleton] at htwo
                subst htwo
                simpa [hid] using hsid

theorem runPrompt_history_eq (s : Session) (st : Stats) (fs : FS) (prompt : String)
    (reply : Option SendResult) (callErr : Option String) (latency now : Nat) (saveOk : Bool) :
    (RunPrompt s st fs prompt reply callErr latency now saveOk).session.history
      = s.history ++ ["User: " ++ prompt,
          "Gemini: " ++ (RunPrompt s st fs prompt reply callErr latency now saveOk).text] := by
  cases saveOk <;> by_cases h0 : s.history.length = 0 <;>
    simp [RunPrompt, saveSession, h0]

theorem runPromptAsTask_history_eq (s : Session) (st : Stats) (fs : FS) (prompt : String)
    (reply : Option SendResult) (callErr : Option String) (latency now : Nat) (saveOk : Bool) :
    (RunPromptAsTask s st fs prompt reply callErr latency now saveOk).session.history
      = s.history ++ ["User: " ++ prompt,
          "Gemini: (task " ++ (RunPromptAsTask s st fs prompt reply callErr latency now saveOk).text ++ ")"] := by
  cases saveOk <;> by_cases h0 : s.history.length = 0 <;>
    simp [RunPromptAsTask, saveSession, h0]

theorem runPromptStream_eq (s : Session) (st : Stats) (fs : FS) (prompt : String)
    (events : List StreamResult) (latency now : Nat) (saveOk : Bool)
    (s1 : Session) (txt : String) (fwd : List StreamResult)
    (hre : relayEvents s "" [] events = some (s1, txt, fwd)) :
    RunPromptStream s st fs prompt none events latency now saveOk
      = some (streamTurnOutcome st fs prompt s1 txt fwd latency now saveOk) := by
  cases saveOk <;>
  · unfold RunPromptStream streamTurnOutcome
    rw [hre]
    simp [saveSession]

theorem streamTurnOutcome_history (st : Stats) (fs : FS) (prompt : String)
    (s1 : Session) (txt : String) (fwd : List StreamResult) (latency now : Nat) (saveOk : Bool) :
    (streamTurnOutcome st fs prompt s1 txt fwd latency now saveOk).session.history
      = s1.history ++ ["User: " ++ prompt, "Gemini: " ++ txt] := by
  cases saveOk <;> by_cases h0 : s1.history.length = 0 <;>
    simp [streamTurnOutcome, saveSession, h0]

theorem streamTurnOutcome_name (st : Stats) (fs : FS) (prompt : String)
    (s1 : Session) (txt : String) (fwd : List StreamResult) (latency now : Nat) (saveOk : Bool) :
    (streamTurnOutcome st fs prompt s1 txt fwd latency now saveOk).session.name
      = (if s1.history.length = 0 then generateNameFromPrompt prompt else s1.name) := by
  cases saveOk <;> by_cases h0 : s1.history.length = 0 <;>
    simp [streamTurnOutcome, saveSession, h0]

theorem streamTurnOutcome_stats (st : Stats) (fs : FS) (prompt : String)
    (s1 : Session) (txt : String) (fwd : List StreamResult) (latency now : Nat) (saveOk : Bool) :
    (streamTurnOutcome st fs prompt s1 txt fwd latency now saveOk).stats
      = st.recordCall latency prompt.length txt.length := by
  cases saveOk <;> simp [streamTurnOutcome, saveSession]

theorem streamTurnOutcome_fwd (st : Stats) (fs : FS) (prompt : String)
    (s1 : Session) (txt : String) (fwd : List StreamResult) (latency now : Nat) (saveOk : Bool) :
    (streamTurnOutcome st fs prompt s1 txt fwd latency now saveOk).forwarded = fwd := by
  cases saveOk <;> simp [streamTurnOutcome, saveSession]

theorem streamTurnOutcome_err_noSave (st : Stats) (fs : FS) (prompt : String)
    (s1 : Session) (txt : String) (fwd : List StreamResult) (latency now : Nat) :
    (streamTurnOutcome st fs prompt s1 txt fwd latency now false).err
      = some ("failed to save session: " ++ "could not create session file") := by
  simp [streamTurnOutcome, saveSession]

theorem runPromptStream_relay_some (s : Session) (st : Stats) (fs : FS) (prompt : String)
    (events : List StreamResult) (latency now : Nat) (saveOk : Bool) (out : StreamTurnResult)
    (h : RunPromptStream s st fs prompt none events latency now saveOk = some out) :
    ∃ s1 txt fwd, relayEvents s "" [] events = some (s1, txt, fwd)
      ∧ out = streamTurnOutcome st fs prompt s1 txt fwd latency now saveOk := by
  cases hre : relayEvents s "" [] events with
  | none =>
      unfold RunPromptStream at h
      rw [hre] at h
      exact absurd h (by simp)
  | some p =>
      obtain ⟨s1, txt, fwd⟩ := p
      refine ⟨s1, txt, fwd, rfl, ?_⟩
      have := runPromptStream_eq s st fs prompt events latency now saveOk s1 txt fwd hre
      rw [this] at h
      exact (Option.some.inj h).symm

/-- Claim C1 (amended: the agent-tagged history line uses the prefix
"Gemini: ", not "Agent: "): every completed runPrompt turn appends exactly
two lines to the record's history, first "User: " followed by the prompt,
then "Gemini: " followed by the returned response text; on a fresh session
with prompt "test prompt" and a reply carrying "mock response", the
resulting history is ["User: test prompt", "Gemini: mock response"], the
session name is "test prompt", and the returned text is "mock response". -/
theorem claim_C1_amended (s : Session) (st : Stats) (fs : FS) (prompt : String)
    (reply : Option SendResult) (callErr : Option String) (latency now : Nat) (saveOk : Bool) :
    (RunPrompt s st fs prompt reply callErr latency now saveOk).session.history
      = s.history ++ ["User: " ++ prompt,
          "Gemini: " ++ (RunPrompt s st fs prompt reply callErr latency now saveOk).text]
    ∧ (RunPrompt sampleSession ⟨0, 0, 0, 0⟩ ⟨[]⟩ "test prompt"
        mockReply none 1 2 true).session.history
      = ["User: test prompt", "Gemini: mock response"]
    ∧ (RunPrompt sampleSession ⟨0, 0, 0, 0⟩ ⟨[]⟩ "test prompt"
        mockReply none 1 2 true).session.name = "test prompt"
    ∧ (RunPrompt sampleSession ⟨0, 0, 0, 0⟩ ⟨[]⟩ "test prompt"
        mockReply none 1 2 true).text = "mock response" := by
  refine ⟨runPrompt_history_eq s st fs prompt reply callErr latency now saveOk, ?_, ?_, ?_⟩ <;> rfl

/-- Claim C1, counterexample to the claim as stated: on the fresh-session
scenario the second history line is "Gemini: mock response", so the history
is not ["User: test prompt", "Agent: mock response"]. -/
theorem claim_C1_counterexample :
    (RunPrompt sampleSession ⟨0, 0, 0, 0⟩ ⟨[]⟩ "test prompt"
        mockReply none 1 2 true).session.history
      ≠ ["User: test prompt", "Agent: mock response"] := by
  decide

/-- Claim C2 (amended: the Session Manager's listConversations returns the
nil slice, not an empty one, when the store directory is empty or every
entry is skipped; the HTTP handler substitutes an empty list before
encoding, so the serialized collection is never null): with an empty cache
and a store whose entries are all unloadable (in particular an empty
store), ListConversations returns the nil collection with no error, and
listConversationsHandler responds with the empty (non-nil) list. -/
theorem claim_C2_amended (m : Manager) (fs : FS) (now : Nat)
    (hm : m.sessions = []) (hfs : ∀ e ∈ fs.files, e.2 = none) :
    (ListConversations m fs now true).conversations = none
    ∧ (ListConversations m fs now true).err = none
    ∧ listConversationsHandler m fs now true = .ok [] := by
  obtain ⟨sessions⟩ := m
  simp only at hm
  subst hm
  have hloop := listConvLoop_allSkip fs now hfs fs.files none
  refine ⟨?_, rfl, ?_⟩
  · simp [ListConversations, hloop]
  · simp [listConversationsHandler, ListConversations, hloop]

theorem claim_C2_witness :
    ((⟨[]⟩ : Manager).sessions = [])
    ∧ (∀ e ∈ (⟨[("x", none)]⟩ : FS).files, e.2 = none)
    ∧ ((ListConversations ⟨[]⟩ ⟨[("x", none)]⟩ 0 true).conversations = none
        ∧ (ListConversations ⟨[]⟩ ⟨[("x", none)]⟩ 0 true).err = none
        ∧ listConversationsHandler ⟨[]⟩ ⟨[("x", none)]⟩ 0 true = .ok []) :=
  ⟨rfl, by decide, claim_C2_amended ⟨[]⟩ ⟨[("x", none)]⟩ 0 rfl (by decide)⟩

/-- Claim C2, counterexample to the claim as stated: on an empty store the
Session Manager's ListConversations returns the nil collection (Go's nil
slice, serialized as null), not an empty list, together with no error. -/
theorem claim_C2_counterexample :
    (ListConversations ⟨[]⟩ ⟨[]⟩ 0 true).conversations = (none : GoSlice ConversationInfo)
    ∧ (ListConversations ⟨[]⟩ ⟨[]⟩ 0 true).err = none
    ∧ (none : GoSlice ConversationInfo) ≠ some [] :=
  ⟨rfl, rfl, fun h => Option.noConfusion h⟩

/-- Claim C3 (amended: runPrompt and runPromptAsTask record call
statistics exactly once per invocation with the prompt's character count
as input size regardless of the call's outcome, and runPromptStream does
so when the streaming call opens, but records nothing when opening the
stream fails, returning the open error before any statistics, history or
persistence step). -/
theorem claim_C3_amended (s : Session) (st : Stats) (fs : FS) (prompt : String)
    (reply : Option SendResult) (callErr : Option String) (latency now : Nat) (saveOk : Bool)
    (events : List StreamResult) (e : String) (out : StreamTurnResult)
    (hstream : RunPromptStream s st fs prompt none events latency now saveOk = some out) :
    (RunPrompt s st fs prompt reply callErr latency now saveOk).stats.totalCalls = st.totalCalls + 1
    ∧ (RunPrompt s st fs prompt reply callErr latency now saveOk).stats.totalCharsIn = st.totalCharsIn + prompt.length
    ∧ (RunPromptAsTask s st fs prompt reply callErr latency now saveOk).stats.totalCalls = st.totalCalls + 1
    ∧ (RunPromptAsTask s st fs prompt reply callErr latency now saveOk).stats.totalCharsIn = st.totalCharsIn + prompt.length
    ∧ out.stats.totalCalls = st.totalCalls + 1
    ∧ out.stats.totalCharsIn = st.totalCharsIn + prompt.length
    ∧ RunPromptStream s st fs prompt (some e) events latency now saveOk
        = some { err := some e, session := s, stats := st, fs := fs, forwarded := [] } := by
  obtain ⟨s1, txt, fwd, hre, hout⟩ :=
    runPromptStream_relay_some s st fs prompt events latency now saveOk out hstream
  subst hout
  refine ⟨?_, ?_, ?_, ?_, ?_, ?_, rfl⟩
  · cases saveOk <;> simp [RunPrompt, saveSession, Stats.recordCall]
  · cases saveOk <;> simp [RunPrompt, saveSession, Stats.recordCall]
  · cases saveOk <;> simp [RunPromptAsTask, saveSession, Stats.recordCall]
  · cases saveOk <;> simp [RunPromptAsTask, saveSession, Stats.recordCall]
  · rw [streamTurnOutcome_stats]
    simp [Stats.recordCall]
  · rw [streamTurnOutcome_stats]
    simp [Stats.recordCall]

theorem claim_C3_witness :
    (RunPromptStream sampleSession ⟨0, 0, 0, 0⟩ ⟨[]⟩ "p" none [] 1 2 true
      = some (streamTurnOutcome ⟨0, 0, 0, 0⟩ ⟨[]⟩ "p" sampleSession "" [] 1 2 true))
    ∧ ((RunPrompt sampleSession ⟨0, 0, 0, 0⟩ ⟨[]⟩ "p" mockReply none 1 2 true).stats.totalCalls = 0 + 1
      ∧ (RunPrompt sampleSession ⟨0, 0, 0, 0⟩ ⟨[]⟩ "p" mockReply none 1 2 true).stats.totalCharsIn = 0 + "p".length
      ∧ (RunPromptAsTask sampleSession ⟨0, 0, 0, 0⟩ ⟨[]⟩ "p" mockReply none 1 2 true).stats.totalCalls = 0 + 1
      ∧ (RunPromptAsTask sampleSession ⟨0, 0, 0, 0⟩ ⟨[]⟩ "p" mockReply none 1 2 true).stats.totalCharsIn = 0 + "p".length
      ∧ (streamTurnOutcome ⟨0, 0, 0, 0⟩ ⟨[]⟩ "p" sampleSession "" [] 1 2 true).stats.totalCalls = 0 + 1
      ∧ (streamTurnOutcome ⟨0, 0, 0, 0⟩ ⟨[]⟩ "p" sampleSession "" [] 1 2 true).stats.totalCharsIn = 0 + "p".length
      ∧ RunPromptStream sampleSession ⟨0, 0, 0, 0⟩ ⟨[]⟩ "p" (some "boom") [] 1 2 true
          = some { err := some "boom", session := sampleSession, stats := ⟨0, 0, 0, 0⟩, fs := ⟨[]⟩, forwarded := [] }) :=
  ⟨by decide, claim_C3_amended sampleSession ⟨0, 0, 0, 0⟩ ⟨[]⟩ "p" mockReply none 1 2 true [] "boom" (streamTurnOutcome ⟨0, 0, 0, 0⟩ ⟨[]⟩ "p" sampleSession "" [] 1 2 true) (by decide)⟩

/-- Claim C3, counterexample to the claim as stated: when opening the
streaming call fails, runPromptStream returns the open error with the
statistics accumulator unchanged, so RecordCall was not invoked for that
turn. -/
theorem claim_C3_counterexample :
    RunPromptStream sampleSession ⟨0, 0, 0, 0⟩ ⟨[]⟩ "test prompt" (some "connection refused") [] 5 6 true
      = some { err := some "connection refused", session := sampleSession, stats := ⟨0, 0, 0, 0⟩, fs := ⟨[]⟩, forwarded := [] }
    ∧ (⟨0, 0, 0, 0⟩ : Stats).totalCalls = 0 :=
  ⟨rfl, rfl⟩

/-- Claim C4 (amended: a task-kind reply yields the concatenation, in
history order, of the text-typed parts of its agent-authored messages,
returning successfully even when that text is empty; an agent-authored
message-kind reply yields the concatenation of its text-typed parts; the
ProtocolError "no response text" occurs exactly when the reply is neither
task-kind nor an agent-authored message-kind — not whenever the extracted
text is empty). -/
theorem claim_C4_amended (r : JResult) :
    (r.kind = "task" → sendPromptParse r = .ok (claimTaskText r.history))
    ∧ (r.kind = "message" → r.message.role = "agent" →
        sendPromptParse r = .ok (claimPartsText r.message.parts))
    ∧ (sendPromptParse r = .error "no response text found in a2a-server response"
        ↔ (r.kind ≠ "task" ∧ ¬(r.kind = "message" ∧ r.message.role = "agent"))) := by
  refine ⟨?_, ?_, ?_⟩
  · intro hk
    simp only [sendPromptParse, hk, if_true, reduceIte]
    rw [taskFold_go r.history "", String.empty_append]
  · intro hk hr
    have h1 : ¬r.kind = "task" := by rw [hk]; decide
    simp only [sendPromptParse, if_neg h1, if_pos (And.intro hk hr)]
    rw [jconcatParts_eq_claim]
  · by_cases h1 : r.kind = "task"
    · simp [sendPromptParse, h1]
    · by_cases h2 : r.kind = "message" ∧ r.message.role = "agent"
      · simp [sendPromptParse, h1, h2]
      · simp [sendPromptParse, h1, h2]

theorem claim_C4_witness :
    (({ kind := "task", history := [{ role := "agent", parts := [{ kind := "text", text := "hi" }] }], message := { role := "", parts := [] } } : JResult).kind = "task")
    ∧ sendPromptParse { kind := "task", history := [{ role := "agent", parts := [{ kind := "text", text := "hi" }] }], message := { role := "", parts := [] } }
        = .ok (claimTaskText [{ role := "agent", parts := [{ kind := "text", text := "hi" }] }]) :=
  ⟨rfl, (claim_C4_amended { kind := "task", history := [{ role := "agent", parts := [{ kind := "text", text := "hi" }] }], message := { role := "", parts := [] } }).1 rfl⟩

/-- Claim C4, counterexample to the claim as stated: a task-kind reply
whose history carries no text content returns success with empty text
instead of failing with the "no response text" ProtocolError. -/
theorem claim_C4_counterexample :
    sendPromptParse { kind := "task", history := [], message := { role := "", parts := [] } } = .ok ""
    ∧ (Except.ok "" : Except String String) ≠ .error "no response text found in a2a-server response" :=
  ⟨rfl, fun h => Except.noConfusion h⟩

/-- Claim C5: when the agent call and the subsequent save both fail in one
turn, the returned error wraps both failures ("original error: <call>,
failed to save session: <save>") so neither masks the other; when only the
save fails, the error is still returned while the computed text is the
same as in a successful-save turn; in the streaming mode the save error is
likewise returned, and a failed stream open returns before persistence is
ever attempted, so the two failures cannot coincide there. -/
theorem claim_C5 (s : Session) (st : Stats) (fs : FS) (prompt : String)
    (reply : Option SendResult) (ce : String) (latency now : Nat)
    (events : List StreamResult) (e : String) (out2 : StreamTurnResult)
    (hsave : RunPromptStream s st fs prompt none events latency now false = some out2) :
    (RunPrompt s st fs prompt reply (some ce) latency now false).err
        = some ("original error: " ++ ce ++ ", failed to save session: " ++ "could not create session file")
    ∧ (RunPrompt s st fs prompt reply (some ce) latency now false).text
        = (RunPrompt s st fs prompt reply (some ce) latency now true).text
    ∧ (RunPromptAsTask s st fs prompt reply (some ce) latency now false).err
        = some ("original error: " ++ ce ++ ", failed to save session: " ++ "could not create session file")
    ∧ (RunPrompt s st fs prompt reply none latency now false).err
        = some ("original error: " ++ "<nil>" ++ ", failed to save session: " ++ "could not create session file")
    ∧ (RunPrompt s st fs prompt reply none latency now false).text
        = (RunPrompt s st fs prompt reply none latency now true).text
    ∧ out2.err = some ("failed to save session: " ++ "could not create session file")
    ∧ RunPromptStream s st fs prompt (some e) events latency now false
        = some { err := some e, session := s, stats := st, fs := fs, forwarded := [] } := by
  obtain ⟨s1, txt, fwd, hre, hout⟩ :=
    runPromptStream_relay_some s st fs prompt events latency now false out2 hsave
  subst hout
  refine ⟨?_, ?_, ?_, ?_, ?_, ?_, rfl⟩
  · simp [RunPrompt, saveSession, fmtErr]
  · simp [RunPrompt, saveSession]
  · simp [RunPromptAsTask, saveSession, fmtErr]
  · simp [RunPrompt, saveSession, fmtErr]
  · simp [RunPrompt, saveSession]
  · exact streamTurnOutcome_err_noSave st fs prompt s1 txt fwd latency now

theorem claim_C5_witness :
    (RunPromptStream sampleSession ⟨0, 0, 0, 0⟩ ⟨[]⟩ "p" none [] 1 2 false
        = some (streamTurnOutcome ⟨0, 0, 0, 0⟩ ⟨[]⟩ "p" sampleSession "" [] 1 2 false))
    ∧ ((RunPrompt sampleSession ⟨0, 0, 0, 0⟩ ⟨[]⟩ "p" mockReply (some "boom") 1 2 false).err
        = some ("original error: " ++ "boom" ++ ", failed to save session: " ++ "could not create session file")
      ∧ (RunPrompt sampleSession ⟨0, 0, 0, 0⟩ ⟨[]⟩ "p" mockReply (some "boom") 1 2 false).text
        = (RunPrompt sampleSession ⟨0, 0, 0, 0⟩ ⟨[]⟩ "p" mockReply (some "boom") 1 2 true).text
      ∧ (RunPromptAsTask sampleSession ⟨0, 0, 0, 0⟩ ⟨[]⟩ "p" mockReply (some "boom") 1 2 false).err
        = some ("original error: " ++ "boom" ++ ", failed to save session: " ++ "could not create session file")
      ∧ (RunPrompt sampleSession ⟨0, 0, 0, 0⟩ ⟨[]⟩ "p" mockReply none 1 2 false).err
        = some ("original error: " ++ "<nil>" ++ ", failed to save session: " ++ "could not create session file")
      ∧ (RunPrompt sampleSession ⟨0, 0, 0, 0⟩ ⟨[]⟩ "p" mockReply none 1 2 false).text
        = (RunPrompt sampleSession ⟨0, 0, 0, 0⟩ ⟨[]⟩ "p" mockReply none 1 2 true).text
      ∧ (streamTurnOutcome ⟨0, 0, 0, 0⟩ ⟨[]⟩ "p" sampleSession "" [] 1 2 false).err
        = some ("failed to save session: " ++ "could not create session file")
      ∧ RunPromptStream sampleSession ⟨0, 0, 0, 0⟩ ⟨[]⟩ "p" (some "open failed") [] 1 2 false
        = some { err := some "open failed", session := sampleSession, stats := ⟨0, 0, 0, 0⟩, fs := ⟨[]⟩, forwarded := [] }) :=
  ⟨by decide, claim_C5 sampleSession ⟨0, 0, 0, 0⟩ ⟨[]⟩ "p" mockReply "boom" 1 2 [] "open failed" (streamTurnOutcome ⟨0, 0, 0, 0⟩ ⟨[]⟩ "p" sampleSession "" [] 1 2 false) (by decide)⟩

/-- Claim C6: every event the relay's internal consumer observes in a
completed relay run is forwarded to the external sink unmodified, exactly
once and in consumption order; one Message event carrying "mock response"
yields exactly that one forwarded event with accumulated text
"mock response", and a TaskStatusUpdate whose embedded message has no text
parts accumulates nothing while still setting the record's continuation
identifiers from the event. -/
theorem claim_C6 (s : Session) (events : List StreamResult)
    (out : Session × String × List StreamResult)
    (h : relayEvents s "" [] events = some out) :
    out.2.2 = events
    ∧ relayEvents s "" [] [mockMessageEvent]
        = some ({ s with contextID := "c1", taskID := "t1" }, "mock response", [mockMessageEvent])
    ∧ relayEvents s "" [] [mockStatusEvent]
        = some ({ s with contextID := "c2", taskID := "t2" }, "", [mockStatusEvent]) := by
  refine ⟨by simpa using relayEvents_fwd events s "" [] out h, rfl, rfl⟩

theorem claim_C6_witness :
    (relayEvents sampleSession "" [] [mockMessageEvent]
        = some ({ sampleSession with contextID := "c1", taskID := "t1" }, "mock response", [mockMessageEvent]))
    ∧ (({ sampleSession with contextID := "c1", taskID := "t1" }, "mock response", [mockMessageEvent]).2.2 = [mockMessageEvent]
      ∧ relayEvents sampleSession "" [] [mockMessageEvent]
          = some ({ sampleSession with contextID := "c1", taskID := "t1" }, "mock response", [mockMessageEvent])
      ∧ relayEvents sampleSession "" [] [mockStatusEvent]
          = some ({ sampleSession with contextID := "c2", taskID := "t2" }, "", [mockStatusEvent])) :=
  ⟨rfl, claim_C6 sampleSession [mockMessageEvent] ({ sampleSession with contextID := "c1", taskID := "t1" }, "mock response", [mockMessageEvent]) rfl⟩

/-- Claim C7: a newly created record has empty history, and each completed
turn of the three interaction modes appends exactly one user line and one
agent line, so evenness of the history length is preserved by every
completed operation (including the streaming turn whose stream open fails,
which appends nothing). -/
theorem claim_C7 (m : Manager) (fs : FS) (id wd : String) (now : Nat) (saveOk : Bool)
    (s sess : Session) (st : Stats) (prompt : String) (reply : Option SendResult)
    (callErr : Option String) (latency : Nat) (events : List StreamResult)
    (out out2 : StreamTurnResult) (e : String)
    (hcreate : (CreateSession m fs id wd now saveOk).session = some sess)
    (heven : Even s.history.length)
    (hstream : RunPromptStream s st fs prompt none events latency now saveOk = some out)
    (hopen : RunPromptStream s st fs prompt (some e) events latency now saveOk = some out2) :
    sess.history = []
    ∧ Even (RunPrompt s st fs prompt reply callErr latency now saveOk).session.history.length
    ∧ Even (RunPromptAsTask s st fs prompt reply callErr latency now saveOk).session.history.length
    ∧ Even out.session.history.length
    ∧ Even out2.session.history.length := by
  refine ⟨?_, ?_, ?_, ?_, ?_⟩
  · cases saveOk
    · simp [CreateSession, saveSession] at hcreate
    · simp only [CreateSession, saveSession, if_true, reduceIte, Option.some.injEq] at hcreate
      rw [← hcreate]
  · have hlen : (RunPrompt s st fs prompt reply callErr latency now saveOk).session.history.length
        = s.history.length + 2 := by rw [runPrompt_history_eq]; simp
    rw [hlen, Nat.even_iff]
    rw [Nat.even_iff] at heven
    omega
  · have hlen : (RunPromptAsTask s st fs prompt reply callErr latency now saveOk).session.history.length
        = s.history.length + 2 := by rw [runPromptAsTask_history_eq]; simp
    rw [hlen, Nat.even_iff]
    rw [Nat.even_iff] at heven
    omega
  · obtain ⟨s1, txt, fwd, hre, hout⟩ :=
      runPromptStream_relay_some s st fs prompt events latency now saveOk out hstream
    subst hout
    have hh : s1.history = s.history := (relayEvents_preserves events s "" [] (s1, txt, fwd) hre).1
    have hlen : (streamTurnOutcome st fs prompt s1 txt fwd latency now saveOk).session.history.length
        = s.history.length + 2 := by rw [streamTurnOutcome_history]; simp [hh]
    rw [hlen, Nat.even_iff]
    rw [Nat.even_iff] at heven
    omega
  · have hout2 : ({ err := some e, session := s, stats := st, fs := fs, forwarded := [] } : StreamTurnResult) = out2 :=
      Option.some.inj hopen
    rw [← hout2]
    exact heven

theorem claim_C7_witness :
    ((CreateSession ⟨[]⟩ ⟨[]⟩ "s1" "" 2 true).session = some { sampleSession with lastAccess := 2 })
    ∧ Even sampleSession.history.length
    ∧ (RunPromptStream sampleSession ⟨0, 0, 0, 0⟩ ⟨[]⟩ "p" none [] 1 2 true
        = some (streamTurnOutcome ⟨0, 0, 0, 0⟩ ⟨[]⟩ "p" sampleSession "" [] 1 2 true))
    ∧ (RunPromptStream sampleSession ⟨0, 0, 0, 0⟩ ⟨[]⟩ "p" (some "boom") [] 1 2 true
        = some { err := some "boom", session := sampleSession, stats := ⟨0, 0, 0, 0⟩, fs := ⟨[]⟩, forwarded := [] })
    ∧ (({ sampleSession with lastAccess := 2 } : Session).history = []
      ∧ Even (RunPrompt sampleSession ⟨0, 0, 0, 0⟩ ⟨[]⟩ "p" mockReply none 1 2 true).session.history.length
      ∧ Even (RunPromptAsTask sampleSession ⟨0, 0, 0, 0⟩ ⟨[]⟩ "p" mockReply none 1 2 true).session.history.length
      ∧ Even (streamTurnOutcome ⟨0, 0, 0, 0⟩ ⟨[]⟩ "p" sampleSession "" [] 1 2 true).session.history.length
      ∧ Even ({ err := some "boom", session := sampleSession, stats := ⟨0, 0, 0, 0⟩, fs := ⟨[]⟩, forwarded := [] } : StreamTurnResult).session.history.length) :=
  ⟨by decide, by decide, by decide, by decide,
    claim_C7 ⟨[]⟩ ⟨[]⟩ "s1" "" 2 true sampleSession { sampleSession with lastAccess := 2 } ⟨0, 0, 0, 0⟩ "p" mockReply none 1 [] (streamTurnOutcome ⟨0, 0, 0, 0⟩ ⟨[]⟩ "p" sampleSession "" [] 1 2 true) { err := some "boom", session := sampleSession, stats := ⟨0, 0, 0, 0⟩, fs := ⟨[]⟩, forwarded := [] } "boom" (by decide) (by decide) (by decide) (by decide)⟩

theorem strTruncate_length (s : String) (n : Nat) : (strTruncate s n).length ≤ n := by
  show (s.data.take n).length ≤ n
  simp [List.length_take]

theorem runPrompt_name_eq (s : Session) (st : Stats) (fs : FS) (prompt : String)
    (reply : Option SendResult) (callErr : Option String) (latency now : Nat) (saveOk : Bool) :
    (RunPrompt s st fs prompt reply callErr latency now saveOk).session.name
      = (if s.history.length = 0 then generateNameFromPrompt prompt else s.name) := by
  cases saveOk <;> by_cases h0 : s.history.length = 0 <;> simp [RunPrompt, saveSession, h0]

theorem runPromptAsTask_name_eq (s : Session) (st : Stats) (fs : FS) (prompt : String)
    (reply : Option SendResult) (callErr : Option String) (latency now : Nat) (saveOk : Bool) :
    (RunPromptAsTask s st fs prompt reply callErr latency now saveOk).session.name
      = (if s.history.length = 0 then generateNameFromPrompt prompt else s.name) := by
  cases saveOk <;> by_cases h0 : s.history.length = 0 <;> simp [RunPromptAsTask, saveSession, h0]

/-- Claim C8: display-name derivation keeps at most the first five
whitespace-delimited tokens rejoined with single spaces and truncated to
50 characters, so the derived name has length at most 50;
"hello world this is a test" derives "hello world this is a" and "short"
derives "short"; and each turn operation derives the name exactly when the
history is empty, leaving it unchanged afterwards. -/
theorem claim_C8 (prompt : String) (s : Session) (st : Stats) (fs : FS)
    (reply : Option SendResult) (callErr : Option String) (latency now : Nat) (saveOk : Bool)
    (events : List StreamResult) (out : StreamTurnResult)
    (hstream : RunPromptStream s st fs prompt none events latency now saveOk = some out) :
    (generateNameFromPrompt prompt).length ≤ 50
    ∧ generateNameFromPrompt "hello world this is a test" = "hello world this is a"
    ∧ generateNameFromPrompt "short" = "short"
    ∧ (RunPrompt s st fs prompt reply callErr latency now saveOk).session.name
        = (if s.history.length = 0 then generateNameFromPrompt prompt else s.name)
    ∧ (RunPromptAsTask s st fs prompt reply callErr latency now saveOk).session.name
        = (if s.history.length = 0 then generateNameFromPrompt prompt else s.name)
    ∧ out.session.name = (if s.history.length = 0 then generateNameFromPrompt prompt else s.name) := by
  refine ⟨?_, by decide, by decide,
    runPrompt_name_eq s st fs prompt reply callErr latency now saveOk,
    runPromptAsTask_name_eq s st fs prompt reply callErr latency now saveOk, ?_⟩
  · simp only [generateNameFromPrompt]
    split <;> split
    · exact strTruncate_length _ 50
    · omega
    · exact strTruncate_length _ 50
    · omega
  · obtain ⟨s1, txt, fwd, hre, hout⟩ :=
      runPromptStream_relay_some s st fs prompt events latency now saveOk out hstream
    subst hout
    have hh : s1.history = s.history := (relayEvents_preserves events s "" [] (s1, txt, fwd) hre).1
    have hn : s1.name = s.name := (relayEvents_preserves events s "" [] (s1, txt, fwd) hre).2.1
    rw [streamTurnOutcome_name, hh, hn]

theorem claim_C8_witness :
    (RunPromptStream sampleSession ⟨0, 0, 0, 0⟩ ⟨[]⟩ "hello world this is a test" none [] 1 2 true
        = some (streamTurnOutcome ⟨0, 0, 0, 0⟩ ⟨[]⟩ "hello world this is a test" sampleSession "" [] 1 2 true))
    ∧ ((generateNameFromPrompt "hello world this is a test").length ≤ 50
      ∧ generateNameFromPrompt "hello world this is a test" = "hello world this is a"
      ∧ generateNameFromPrompt "short" = "short"
      ∧ (RunPrompt sampleSession ⟨0, 0, 0, 0⟩ ⟨[]⟩ "hello world this is a test" mockReply none 1 2 true).session.name
          = (if sampleSession.history.length = 0 then generateNameFromPrompt "hello world this is a test" else sampleSession.name)
      ∧ (RunPromptAsTask sampleSession ⟨0, 0, 0, 0⟩ ⟨[]⟩ "hello world this is a test" mockReply none 1 2 true).session.name
          = (if sampleSession.history.length = 0 then generateNameFromPrompt "hello world this is a test" else sampleSession.name)
      ∧ (streamTurnOutcome ⟨0, 0, 0, 0⟩ ⟨[]⟩ "hello world this is a test" sampleSession "" [] 1 2 true).session.name
          = (if sampleSession.history.length = 0 then generateNameFromPrompt "hello world this is a test" else sampleSession.name)) :=
  ⟨by decide, claim_C8 "hello world this is a test" sampleSession ⟨0, 0, 0, 0⟩ ⟨[]⟩ mockReply none 1 2 true [] (streamTurnOutcome ⟨0, 0, 0, 0⟩ ⟨[]⟩ "hello world this is a test" sampleSession "" [] 1 2 true) (by decide)⟩

/-- Claim C9: deleteSession succeeds when the durable file is already
absent (leaving the store unchanged); deleting an existing record removes
both the cache entry and the durable file; and on a consistent store a
subsequent listConversations excludes the deleted identifier. -/
theorem claim_C9 (m : Manager) (fs : FS) (id : String) (removeOk : Bool) (now : Nat)
    (hc : cacheWF m) (hf : fsWF fs) :
    (fileLookup fs id = none →
      (DeleteSession m fs id removeOk).err = none ∧ (DeleteSession m fs id removeOk).fs = fs)
    ∧ (DeleteSession m fs id true).err = none
    ∧ cacheLookup (DeleteSession m fs id true).manager id = none
    ∧ fileLookup (DeleteSession m fs id true).fs id = none
    ∧ (∀ info ∈ ((ListConversations (DeleteSession m fs id true).manager (DeleteSession m fs id true).fs now true).conversations.getD []), info.id ≠ id) := by
  have hcache : cacheLookup (⟨m.sessions.filter (fun e => e.1 ≠ id)⟩ : Manager) id = none := by
    unfold cacheLookup
    rw [find?_key_filter]
    rfl
  have hcwf : cacheWF (⟨m.sessions.filter (fun e => e.1 ≠ id)⟩ : Manager) :=
    cacheWF_filter m _ hc
  refine ⟨?_, ?_, ?_, ?_, ?_⟩
  · intro habsent
    unfold DeleteSession
    rw [habsent]
    exact ⟨rfl, rfl⟩
  · unfold DeleteSession
    cases hfl : fileLookup fs id <;> simp
  · unfold DeleteSession
    cases hfl : fileLookup fs id <;> simpa using hcache
  · unfold DeleteSession
    cases hfl : fileLookup fs id with
    | none => simpa using hfl
    | some c =>
        simp only [if_true, reduceIte]
        unfold fileLookup fsRemove
        rw [find?_key_filter]
        rfl
  · unfold DeleteSession
    cases hfl : fileLookup fs id with
    | none =>
        simp only
        unfold ListConversations
        simp only [if_true, reduceIte]
        exact listConvLoop_excludes fs now id hf fs.files _ none hcwf
          (keys_of_absent fs id hfl) (by intro info hinfo; simp at hinfo)
    | some c =>
        simp only [if_true, reduceIte]
        unfold ListConversations
        simp only [if_true, reduceIte]
        refine listConvLoop_excludes (fsRemove fs id) now id ?_ (fsRemove fs id).files _ none hcwf ?_ ?_
        · exact fsWF_filter fs _ hf
        · intro e he
          have := (List.mem_filter.mp he).2
          simpa using this
        · intro info hinfo
          simp at hinfo

theorem claim_C9_witness :
    cacheWF ⟨[("a", { id := "a", name := "N", history := [], lastAccess := 0, workingDirectory := "", contextID := "", taskID := "" })]⟩
    ∧ fsWF ⟨[("a", some { id := "a", name := "N", history := [], lastAccess := 0, workingDirectory := "", contextID := "", taskID := "" }), ("b", some { id := "b", name := "M", history := [], lastAccess := 0, workingDirectory := "", contextID := "", taskID := "" })]⟩
    ∧ ((fileLookup ⟨[("a", some { id := "a", name := "N", history := [], lastAccess := 0, workingDirectory := "", contextID := "", taskID := "" }), ("b", some { id := "b", name := "M", history := [], lastAccess := 0, workingDirectory := "", contextID := "", taskID := "" })]⟩ "a" = none →
        (DeleteSession ⟨[("a", { id := "a", name := "N", history := [], lastAccess := 0, workingDirectory := "", contextID := "", taskID := "" })]⟩ ⟨[("a", some { id := "a", name := "N", history := [], lastAccess := 0, workingDirectory := "", contextID := "", taskID := "" }), ("b", some { id := "b", name := "M", history := [], lastAccess := 0, workingDirectory := "", contextID := "", taskID := "" })]⟩ "a" true).err = none
        ∧ (DeleteSession ⟨[("a", { id := "a", name := "N", history := [], lastAccess := 0, workingDirectory := "", contextID := "", taskID := "" })]⟩ ⟨[("a", some { id := "a", name := "N", history := [], lastAccess := 0, workingDirectory := "", contextID := "", taskID := "" }), ("b", some { id := "b", name := "M", history := [], lastAccess := 0, workingDirectory := "", contextID := "", taskID := "" })]⟩ "a" true).fs = ⟨[("a", some { id := "a", name := "N", history := [], lastAccess := 0, workingDirectory := "", contextID := "", taskID := "" }), ("b", some { id := "b", name := "M", history := [], lastAccess := 0, workingDirectory := "", contextID := "", taskID := "" })]⟩)
      ∧ (DeleteSession ⟨[("a", { id := "a", name := "N", history := [], lastAccess := 0, workingDirectory := "", contextID := "", taskID := "" })]⟩ ⟨[("a", some { id := "a", name := "N", history := [], lastAccess := 0, workingDirectory := "", contextID := "", taskID := "" }), ("b", some { id := "b", name := "M", history := [], lastAccess := 0, workingDirectory := "", contextID := "", taskID := "" })]⟩ "a" true).err = none
      ∧ cacheLookup (DeleteSession ⟨[("a", { id := "a", name := "N", history := [], lastAccess := 0, workingDirectory := "", contextID := "", taskID := "" })]⟩ ⟨[("a", some { id := "a", name := "N", history := [], lastAccess := 0, workingDirectory := "", contextID := "", taskID := "" }), ("b", some { id := "b", name := "M", history := [], lastAccess := 0, workingDirectory := "", contextID := "", taskID := "" })]⟩ "a" true).manager "a" = none
      ∧ fileLookup (DeleteSession ⟨[("a", { id := "a", name := "N", history := [], lastAccess := 0, workingDirectory := "", contextID := "", taskID := "" })]⟩ ⟨[("a", some { id := "a", name := "N", history := [], lastAccess := 0, workingDirectory := "", contextID := "", taskID := "" }), ("b", some { id := "b", name := "M", history := [], lastAccess := 0, workingDirectory := "", contextID := "", taskID := "" })]⟩ "a" true).fs "a" = none
      ∧ (∀ info ∈ ((ListConversations (DeleteSession ⟨[("a", { id := "a", name := "N", history := [], lastAccess := 0, workingDirectory := "", contextID := "", taskID := "" })]⟩ ⟨[("a", some { id := "a", name := "N", history := [], lastAccess := 0, workingDirectory := "", contextID := "", taskID := "" }), ("b", some { id := "b", name := "M", history := [], lastAccess := 0, workingDirectory := "", contextID := "", taskID := "" })]⟩ "a" true).manager (DeleteSession ⟨[("a", { id := "a", name := "N", history := [], lastAccess := 0, workingDirectory := "", contextID := "", taskID := "" })]⟩ ⟨[("a", some { id := "a", name := "N", history := [], lastAccess := 0, workingDirectory := "", contextID := "", taskID := "" }), ("b", some { id := "b", name := "M", history := [], lastAccess := 0, workingDirectory := "", contextID := "", taskID := "" })]⟩ "a" true).fs 7 true).conversations.getD []), info.id ≠ "a")) :=
  ⟨by unfold cacheWF; decide, by unfold fsWF; decide,
    claim_C9 ⟨[("a", { id := "a", name := "N", history := [], lastAccess := 0, workingDirectory := "", contextID := "", taskID := "" })]⟩ ⟨[("a", some { id := "a", name := "N", history := [], lastAccess := 0, workingDirectory := "", contextID := "", taskID := "" }), ("b", some { id := "b", name := "M", history := [], lastAccess := 0, workingDirectory := "", contextID := "", taskID := "" })]⟩ "a" true 7 (by unfold cacheWF; decide) (by unfold fsWF; decide)⟩

/-- Claim C10: a createSession whose immediate persistence fails and an
acquire whose load from durable storage fails both return the error and
leave the in-memory cache (and, for create, the store) unchanged, caching
no record for the identifier. -/
theorem claim_C10 (m : Manager) (fs : FS) (id wd : String) (now : Nat) (e : String)
    (hcl : cacheLookup m id = none) (hload : load fs id = .error e) :
    (CreateSession m fs id wd now false).manager = m
    ∧ (CreateSession m fs id wd now false).err = some "could not create session file"
    ∧ (CreateSession m fs id wd now false).session = none
    ∧ (CreateSession m fs id wd now false).fs = fs
    ∧ (AcquireSession m fs id now).manager = m
    ∧ (AcquireSession m fs id now).err = some e
    ∧ (AcquireSession m fs id now).session = none := by
  have hacq : AcquireSession m fs id now = { session := none, manager := m, err := some e } := by
    unfold AcquireSession
    rw [hcl, hload]
  refine ⟨rfl, rfl, rfl, rfl, ?_, ?_, ?_⟩ <;> rw [hacq]

theorem claim_C10_witness :
    cacheLookup ⟨[]⟩ "ghost" = none
    ∧ load ⟨[]⟩ "ghost" = .error "could not open session file"
    ∧ ((CreateSession ⟨[]⟩ ⟨[]⟩ "ghost" "" 0 false).manager = ⟨[]⟩
      ∧ (CreateSession ⟨[]⟩ ⟨[]⟩ "ghost" "" 0 false).err = some "could not create session file"
      ∧ (CreateSession ⟨[]⟩ ⟨[]⟩ "ghost" "" 0 false).session = none
      ∧ (CreateSession ⟨[]⟩ ⟨[]⟩ "ghost" "" 0 false).fs = ⟨[]⟩
      ∧ (AcquireSession ⟨[]⟩ ⟨[]⟩ "ghost" 0).manager = ⟨[]⟩
      ∧ (AcquireSession ⟨[]⟩ ⟨[]⟩ "ghost" 0).err = some "could not open session file"
      ∧ (AcquireSession ⟨[]⟩ ⟨[]⟩ "ghost" 0).session = none) :=
  ⟨rfl, rfl, claim_C10 ⟨[]⟩ ⟨[]⟩ "ghost" "" 0 "could not open session file" rfl rfl⟩

end GeminiSrv
